import Mathlib

/-!
Shallow embedding of `scripts/validate_rfc6979.py` (RFC 6979 signature-vector
cross-validation).  Bytes are modelled as `Nat` values below 256, byte strings
as `List Nat`, and the external cryptography provider (Ed25519 signing and
ECDSA verification) as an abstract `Crypto` structure, since the script only
consumes those primitives.  Python exceptions are modelled with
`Except String`; each per-family validator catches the body at its boundary
exactly as the Python `try`/`except` does.
-/

namespace RFC6979

/-- Decode one hexadecimal digit, as accepted by Python `bytes.fromhex`. -/
def hexDigit (ch : Char) : Option Nat :=
  if 48 ≤ ch.toNat ∧ ch.toNat ≤ 57 then some (ch.toNat - 48)
  else if 97 ≤ ch.toNat ∧ ch.toNat ≤ 102 then some (ch.toNat - 87)
  else if 65 ≤ ch.toNat ∧ ch.toNat ≤ 70 then some (ch.toNat - 55)
  else none

/-- Model of Python `bytes.fromhex` on pure hex strings: pairs of hex digits
become bytes, and an odd length or a non-hex character raises `ValueError`.
(The CPython extra of ignoring ASCII spaces between bytes is not used by the
vector files and is not modelled.) -/
def hexDecodeList : List Char → Except String (List Nat)
  | [] => .ok []
  | [_] => .error "non-hexadecimal number found in fromhex() arg"
  | c1 :: c2 :: rest =>
    match hexDigit c1, hexDigit c2 with
    | some hi, some lo =>
      match hexDecodeList rest with
      | .ok bs => .ok ((16 * hi + lo) :: bs)
      | .error e => .error e
    | _, _ => .error "non-hexadecimal number found in fromhex() arg"

/-- Model of Python `bytes.fromhex`. -/
def hexDecode (s : String) : Except String (List Nat) :=
  hexDecodeList s.data

/-- Lower-case hex character for a value below 16. -/
def hexChar (n : Nat) : Char :=
  if n < 10 then Char.ofNat (48 + n) else Char.ofNat (87 + n)

/-- Model of Python `bytes.hex()`: lower-case hex encoding. -/
def hexEncode (bs : List Nat) : String :=
  String.mk (bs.flatMap fun b => [hexChar (b / 16), hexChar (b % 16)])

/-- Model of Python `int.from_bytes(bs, "big")`. -/
def beInt (bs : List Nat) : Nat :=
  bs.foldl (fun acc b => acc * 256 + b) 0

/-- The two ECDSA curve families handled by the script. -/
inductive Curve
  | secp256k1
  | secp256r1
deriving DecidableEq

/-- The per-family curve order `n`, the named constants from
`validate_secp256k1` (line 150) and `validate_secp256r1` (line 217). -/
def curveOrder : Curve → Nat
  | .secp256k1 => 0xFFFFFFFFFFFFFFFFFFFFFFFFFFFFFFFEBAAEDCE6AF48A03BBFD25E8CD0364141
  | .secp256r1 => 0xFFFFFFFF00000000FFFFFFFFFFFFFFFFBCE6FAADA7179E84F3B9CAC2FC632551

/-- One `expected.signatures.<family>` object of a test vector. -/
structure FamilySig where
  private_key_hex : String
  public_key_hex : String
  signature_hex : String
deriving DecidableEq

/-- One test vector of `signing_vectors.json`, as the script reads it:
a name, the hex digest `expected.sign_bytes_hex`, and an optional entry per
signature family. -/
structure Vector where
  name : String
  sign_bytes_hex : String
  ed25519 : Option FamilySig
  secp256k1 : Option FamilySig
  secp256r1 : Option FamilySig
deriving DecidableEq

/-- The external cryptography provider consumed by the script:
`Ed25519PrivateKey.from_private_bytes(seed).sign(msg)` as a pure function of
the 32-byte seed and the message, and ECDSA verification of `(r, s)` against
the public key derived from the private scalar on the given curve (the script
always reconstructs the public key from the private key and verifies the
prehashed digest).  An out-of-range or negative `s` simply fails to verify. -/
structure Crypto where
  ed25519Sign : List Nat → List Nat → List Nat
  ecVerify : Curve → Nat → List Nat → Int → Int → Bool

/-- Body of `validate_ed25519` (lines 61 to 92), inside the `try`. -/
def ed25519Check (c : Crypto) (v : Vector) : Except String (Option Bool × String) :=
  match v.ed25519 with
  | none => .ok (none, "No ed25519 signature in vector")
  | some d =>
    match hexDecode d.private_key_hex with
    | .error e => .error e
    | .ok priv_key_bytes =>
      -- take the first 32 bytes (seed) when the field is 64 bytes long
      let seed := if priv_key_bytes.length = 64 then priv_key_bytes.take 32 else priv_key_bytes
      -- Ed25519PrivateKey.from_private_bytes raises unless the seed is 32 bytes
      if seed.length ≠ 32 then .error "An Ed25519 private key is 32 bytes long"
      else
        match hexDecode v.sign_bytes_hex with
        | .error e => .error e
        | .ok message =>
          let actual_sig_hex := hexEncode (c.ed25519Sign seed message)
          if actual_sig_hex = d.signature_hex then
            .ok (some true, "Ed25519 signature matches: " ++ actual_sig_hex.take 32 ++ "...")
          else
            .ok (some false, "Ed25519 mismatch!\n  Expected: " ++ d.signature_hex
              ++ "\n  Got:      " ++ actual_sig_hex)

/-- `validate_ed25519` (lines 54 to 95): the `try` body with its
`except Exception` boundary. -/
def validate_ed25519 (c : Crypto) (v : Vector) : Option Bool × String :=
  match ed25519Check c v with
  | .ok r => r
  | .error e => (some false, "Ed25519 validation error: " ++ e)

/-- Body of `validate_secp256k1` (lines 110 to 162), inside the `try`. -/
def secp256k1Check (c : Crypto) (v : Vector) : Except String (Option Bool × String) :=
  match v.secp256k1 with
  | none => .ok (none, "No secp256k1 signature in vector")
  | some d =>
    if d.signature_hex = "" then .ok (none, "Empty signature (seed derivation only)")
    else
      match hexDecode d.private_key_hex with
      | .error e => .error e
      | .ok priv_key_bytes =>
        let priv_key_int := beInt priv_key_bytes
        -- ec.derive_private_key raises unless 0 < scalar < curve order
        if priv_key_int < 1 ∨ curveOrder .secp256k1 ≤ priv_key_int then
          .error "The private key value is not valid for this curve"
        else
          match hexDecode v.sign_bytes_hex with
          | .error e => .error e
          | .ok message_hash =>
            match hexDecode d.signature_hex with
            | .error e => .error e
            | .ok expected_sig_bytes =>
              let expected_r : Int := beInt (expected_sig_bytes.take 32)
              let expected_s : Int := beInt (expected_sig_bytes.drop 32)
              let sig_verifies :=
                if c.ecVerify .secp256k1 priv_key_int message_hash expected_r expected_s
                then true
                else c.ecVerify .secp256k1 priv_key_int message_hash expected_r
                  ((curveOrder .secp256k1 : Int) - expected_s)
              if sig_verifies then
                .ok (some true, "secp256k1 signature verified: " ++ d.signature_hex.take 32 ++ "...")
              else
                .ok (some false, "secp256k1 signature verification FAILED")

/-- `validate_secp256k1` (lines 97 to 165): the `try` body with its
`except Exception` boundary. -/
def validate_secp256k1 (c : Crypto) (v : Vector) : Option Bool × String :=
  match secp256k1Check c v with
  | .ok r => r
  | .error e => (some false, "secp256k1 validation error: " ++ e)

/-- Body of `validate_secp256r1` (lines 177 to 229), inside the `try`. -/
def secp256r1Check (c : Crypto) (v : Vector) : Except String (Option Bool × String) :=
  match v.secp256r1 with
  | none => .ok (none, "No secp256r1 signature in vector")
  | some d =>
    if d.signature_hex = "" then .ok (none, "Empty signature (seed derivation only)")
    else
      match hexDecode d.private_key_hex with
      | .error e => .error e
      | .ok priv_key_bytes =>
        let priv_key_int := beInt priv_key_bytes
        -- ec.derive_private_key raises unless 0 < scalar < curve order
        if priv_key_int < 1 ∨ curveOrder .secp256r1 ≤ priv_key_int then
          .error "The private key value is not valid for this curve"
        else
          match hexDecode v.sign_bytes_hex with
          | .error e => .error e
          | .ok message_hash =>
            match hexDecode d.signature_hex with
            | .error e => .error e
            | .ok expected_sig_bytes =>
              let expected_r : Int := beInt (expected_sig_bytes.take 32)
              let expected_s : Int := beInt (expected_sig_bytes.drop 32)
              let sig_verifies :=
                if c.ecVerify .secp256r1 priv_key_int message_hash expected_r expected_s
                then true
                else c.ecVerify .secp256r1 priv_key_int message_hash expected_r
                  ((curveOrder .secp256r1 : Int) - expected_s)
              if sig_verifies then
                .ok (some true, "secp256r1 signature verified: " ++ d.signature_hex.take 32 ++ "...")
              else
                .ok (some false, "secp256r1 signature verification FAILED")

/-- `validate_secp256r1` (lines 167 to 232): the `try` body with its
`except Exception` boundary. -/
def validate_secp256r1 (c : Crypto) (v : Vector) : Option Bool × String :=
  match secp256r1Check c v with
  | .ok r => r
  | .error e => (some false, "secp256r1 validation error: " ++ e)

/-- `validate_vector` (lines 234 to 254): run the three family validators and
keep, in order, the entries whose result is not `None`, each as
(algorithm, passed, message). -/
def validate_vector (c : Crypto) (v : Vector) : String × List (String × Bool × String) :=
  let algos := [("ed25519", validate_ed25519 c v),
                ("secp256k1", validate_secp256k1 c v),
                ("secp256r1", validate_secp256r1 c v)]
  (v.name, algos.filterMap fun p =>
    match p.2.1 with
    | some b => some (p.1, b, p.2.2)
    | none => none)

/-- The `self.results` accumulator: `passed`, `failed` and `skipped` lists. -/
structure Results where
  passed : List String
  failed : List String
  skipped : List String
deriving DecidableEq

/-- One iteration of the inner loop of `run` (lines 275 to 283): a passing
algorithm appends `name:algo` to `passed`, a failing one appends it to
`failed` and clears `vector_passed`. -/
def processAlgo (name : String) (st : Results × Bool) (ar : String × Bool × String) :
    Results × Bool :=
  if ar.2.1 then
    ({ st.1 with passed := st.1.passed ++ [name ++ ":" ++ ar.1] }, st.2)
  else
    ({ st.1 with failed := st.1.failed ++ [name ++ ":" ++ ar.1] }, false)

/-- One iteration of the outer loop of `run` (lines 265 to 286): a vector with
no reported algorithms appends its bare name to `skipped`; otherwise the inner
loop runs with a fresh `vector_passed = True` and `all_passed` keeps its value
only if the whole vector passed. -/
def processVector (c : Crypto) (st : Results × Bool) (v : Vector) : Results × Bool :=
  let r := validate_vector c v
  if r.2.isEmpty then
    ({ st.1 with skipped := st.1.skipped ++ [r.1] }, st.2)
  else
    let inner := r.2.foldl (processAlgo r.1) (st.1, true)
    (inner.1, st.2 && inner.2)

/-- `RFC6979Validator.run` (lines 256 to 301): fold all vectors starting from
empty result lists and `all_passed = True`; returns the final `self.results`
(the content of the optional JSON report) and `all_passed`. -/
def run (c : Crypto) (vectors : List Vector) : Results × Bool :=
  vectors.foldl (processVector c) (⟨[], [], []⟩, true)

/-- `main` (lines 304 to 334), reduced to its exit code: a missing vectors
file exits 1 before any validation; otherwise the exit code is 0 when `run`
returns `True` and 1 otherwise.  `none` stands for a missing file. -/
def mainExitCode (c : Crypto) (data : Option (List Vector)) : Nat :=
  match data with
  | none => 1
  | some vs => if (run c vs).2 then 0 else 1

/-! ### Characterization of the aggregation loop -/

/-- Decidable emptiness of a list. -/
def isNil {α : Type} : List α → Bool
  | [] => true
  | _ :: _ => false

/-- The reported (algorithm, passed, message) entries of one vector. -/
def vecEntries (c : Crypto) (v : Vector) : List (String × Bool × String) :=
  (validate_vector c v).2

/-- The `name:algo` identifiers a list of entries contributes to `passed`. -/
def passOf (name : String) (l : List (String × Bool × String)) : List String :=
  l.filterMap fun ar => if ar.2.1 then some (name ++ ":" ++ ar.1) else none

/-- The `name:algo` identifiers a list of entries contributes to `failed`. -/
def failOf (name : String) (l : List (String × Bool × String)) : List String :=
  l.filterMap fun ar => if ar.2.1 then none else some (name ++ ":" ++ ar.1)

/-- The identifiers one vector contributes to `passed`. -/
def passEntries (c : Crypto) (v : Vector) : List String :=
  passOf v.name (vecEntries c v)

/-- The identifiers one vector contributes to `failed`. -/
def failEntries (c : Crypto) (v : Vector) : List String :=
  failOf v.name (vecEntries c v)

/-- The bare names one vector contributes to `skipped`. -/
def skipEntries (c : Crypto) (v : Vector) : List String :=
  if isNil (vecEntries c v) then [v.name] else []

/-- Concatenation of the per-vector contributions over a vector list. -/
def collect {α : Type} (f : α → List String) : List α → List String
  | [] => []
  | x :: xs => f x ++ collect f xs

theorem isNil_append {α : Type} (l1 l2 : List α) :
    isNil (l1 ++ l2) = (isNil l1 && isNil l2) := by
  cases l1 <;> simp [isNil]

theorem algos_fold (name : String) (l : List (String × Bool × String)) :
    ∀ (res : Results) (b : Bool),
    l.foldl (processAlgo name) (res, b) =
      (⟨res.passed ++ passOf name l, res.failed ++ failOf name l, res.skipped⟩,
        b && isNil (failOf name l)) := by
  induction l with
  | nil => intro res b; simp [passOf, failOf, isNil]
  | cons ar rest ih =>
    intro res b
    rcases ar with ⟨a, p, m⟩
    cases p with
    | true =>
      simp only [List.foldl_cons, processAlgo, if_pos rfl]
      rw [ih]
      simp [passOf, failOf]
    | false =>
      simp only [List.foldl_cons, processAlgo]
      rw [ih]
      simp [passOf, failOf, isNil]

theorem run_fold (c : Crypto) (vs : List Vector) :
    ∀ (res : Results) (b : Bool),
    vs.foldl (processVector c) (res, b) =
      (⟨res.passed ++ collect (passEntries c) vs,
        res.failed ++ collect (failEntries c) vs,
        res.skipped ++ collect (skipEntries c) vs⟩,
        b && isNil (collect (failEntries c) vs)) := by
  induction vs with
  | nil => intro res b; simp [collect, isNil]
  | cons v rest ih =>
    intro res b
    simp only [List.foldl_cons]
    by_cases h : isNil (vecEntries c v) = true
    · have hempty : (validate_vector c v).2 = [] := by
        have : vecEntries c v = [] := by
          cases hv : vecEntries c v with
          | nil => rfl
          | cons a l => rw [hv] at h; simp [isNil] at h
        exact this
      have hname : (validate_vector c v).1 = v.name := rfl
      have hstep : processVector c (res, b) v =
          ({ res with skipped := res.skipped ++ [v.name] }, b) := by
        simp [processVector, hempty, List.isEmpty, hname]
      rw [hstep, ih]
      have hpass : passEntries c v = [] := by simp [passEntries, passOf, vecEntries, hempty]
      have hfail : failEntries c v = [] := by simp [failEntries, failOf, vecEntries, hempty]
      simp [collect, hpass, hfail, skipEntries, h, vecEntries, hempty, isNil]
    · have hne : (validate_vector c v).2 ≠ [] := by
        intro hv
        apply h
        simp [vecEntries, hv, isNil]
      have hstep : processVector c (res, b) v =
          (⟨res.passed ++ passEntries c v, res.failed ++ failEntries c v, res.skipped⟩,
            b && isNil (failEntries c v)) := by
        simp only [processVector]
        rw [if_neg (by simpa [List.isEmpty_iff] using hne)]
        rw [show (validate_vector c v).1 = v.name from rfl]
        rw [algos_fold]
        simp [passEntries, failEntries, vecEntries]
      rw [hstep, ih]
      have hskip : skipEntries c v = [] := by simp [skipEntries, h]
      simp [collect, hskip, isNil_append, Bool.and_assoc]

/-! ### Evaluation lemmas for the per-family validators -/

theorem secp256k1_eval (c : Crypto) (v : Vector) (d : FamilySig)
    (pb mh sb : List Nat)
    (hd : v.secp256k1 = some d)
    (hne : d.signature_hex ≠ "")
    (hpb : hexDecode d.private_key_hex = .ok pb)
    (hk1 : 1 ≤ beInt pb)
    (hk2 : beInt pb < curveOrder Curve.secp256k1)
    (hmh : hexDecode v.sign_bytes_hex = .ok mh)
    (hsb : hexDecode d.signature_hex = .ok sb) :
    validate_secp256k1 c v =
      if c.ecVerify Curve.secp256k1 (beInt pb) mh (beInt (sb.take 32) : Int)
            (beInt (sb.drop 32) : Int)
          || c.ecVerify Curve.secp256k1 (beInt pb) mh (beInt (sb.take 32) : Int)
            ((curveOrder Curve.secp256k1 : Int) - (beInt (sb.drop 32) : Int))
      then (some true, "secp256k1 signature verified: " ++ d.signature_hex.take 32 ++ "...")
      else (some false, "secp256k1 signature verification FAILED") := by
  have hrange : ¬ (beInt pb < 1 ∨ curveOrder Curve.secp256k1 ≤ beInt pb) := by omega
  simp only [validate_secp256k1, secp256k1Check, hd, hpb, hmh, hsb, if_neg hne, if_neg hrange]
  cases hv : c.ecVerify Curve.secp256k1 (beInt pb) mh (beInt (sb.take 32) : Int)
      (beInt (sb.drop 32) : Int)
  · cases hv2 : c.ecVerify Curve.secp256k1 (beInt pb) mh (beInt (sb.take 32) : Int)
        ((curveOrder Curve.secp256k1 : Int) - (beInt (sb.drop 32) : Int)) <;>
      simp [hv, hv2]
  · simp [hv]

theorem secp256r1_eval (c : Crypto) (v : Vector) (d : FamilySig)
    (pb mh sb : List Nat)
    (hd : v.secp256r1 = some d)
    (hne : d.signature_hex ≠ "")
    (hpb : hexDecode d.private_key_hex = .ok pb)
    (hk1 : 1 ≤ beInt pb)
    (hk2 : beInt pb < curveOrder Curve.secp256r1)
    (hmh : hexDecode v.sign_bytes_hex = .ok mh)
    (hsb : hexDecode d.signature_hex = .ok sb) :
    validate_secp256r1 c v =
      if c.ecVerify Curve.secp256r1 (beInt pb) mh (beInt (sb.take 32) : Int)
            (beInt (sb.drop 32) : Int)
          || c.ecVerify Curve.secp256r1 (beInt pb) mh (beInt (sb.take 32) : Int)
            ((curveOrder Curve.secp256r1 : Int) - (beInt (sb.drop 32) : Int))
      then (some true, "secp256r1 signature verified: " ++ d.signature_hex.take 32 ++ "...")
      else (some false, "secp256r1 signature verification FAILED") := by
  have hrange : ¬ (beInt pb < 1 ∨ curveOrder Curve.secp256r1 ≤ beInt pb) := by omega
  simp only [validate_secp256r1, secp256r1Check, hd, hpb, hmh, hsb, if_neg hne, if_neg hrange]
  cases hv : c.ecVerify Curve.secp256r1 (beInt pb) mh (beInt (sb.take 32) : Int)
      (beInt (sb.drop 32) : Int)
  · cases hv2 : c.ecVerify Curve.secp256r1 (beInt pb) mh (beInt (sb.take 32) : Int)
        ((curveOrder Curve.secp256r1 : Int) - (beInt (sb.drop 32) : Int)) <;>
      simp [hv, hv2]
  · simp [hv]

theorem ed25519_eval (c : Crypto) (v : Vector) (d : FamilySig)
    (pb msg : List Nat)
    (hd : v.ed25519 = some d)
    (hpb : hexDecode d.private_key_hex = .ok pb)
    (hseed : (if pb.length = 64 then pb.take 32 else pb).length = 32)
    (hmsg : hexDecode v.sign_bytes_hex = .ok msg) :
    validate_ed25519 c v =
      if hexEncode (c.ed25519Sign (if pb.length = 64 then pb.take 32 else pb) msg)
          = d.signature_hex
      then (some true, "Ed25519 signature matches: "
        ++ (hexEncode (c.ed25519Sign (if pb.length = 64 then pb.take 32 else pb) msg)).take 32
        ++ "...")
      else (some false, "Ed25519 mismatch!\n  Expected: " ++ d.signature_hex
        ++ "\n  Got:      "
        ++ hexEncode (c.ed25519Sign (if pb.length = 64 then pb.take 32 else pb) msg)) := by
  have hlen : ¬ ((if pb.length = 64 then pb.take 32 else pb).length ≠ 32) := by
    simp [hseed]
  simp only [validate_ed25519, ed25519Check, hd, hpb, hmsg, if_neg hlen]
  cases hv : hexEncode (c.ed25519Sign (if pb.length = 64 then pb.take 32 else pb) msg)
      == d.signature_hex
  · have : ¬ (hexEncode (c.ed25519Sign (if pb.length = 64 then pb.take 32 else pb) msg)
        = d.signature_hex) := by
      simpa using hv
    simp [this]
  · have : hexEncode (c.ed25519Sign (if pb.length = 64 then pb.take 32 else pb) msg)
        = d.signature_hex := by
      simpa using hv
    simp [this]

/-- `run` in closed form: the three result lists are the per-vector
contributions in order, and `all_passed` is true exactly when no `failed`
entry was produced. -/
theorem run_spec (c : Crypto) (vs : List Vector) :
    run c vs =
      (⟨collect (passEntries c) vs, collect (failEntries c) vs,
        collect (skipEntries c) vs⟩,
        isNil (collect (failEntries c) vs)) := by
  have := run_fold c vs ⟨[], [], []⟩ true
  simpa [run] using this

/-! ### Concrete instances used by witnesses and counterexamples -/

/-- A string of `n` zero characters. -/
def zeros (n : Nat) : String := String.mk (List.replicate n '0')

/-- A concrete external provider: Ed25519 signing returns 64 zero bytes
(the length every real Ed25519 signature has) and ECDSA verification always
fails. -/
def cFalse : Crypto :=
  { ed25519Sign := fun _ _ => List.replicate 64 0
    ecVerify := fun _ _ _ _ _ => false }

/-- Vector with both ECDSA families present, private key 1 and a one-byte
claimed signature. -/
def vecEcdsa : Vector :=
  { name := "w1", sign_bytes_hex := "",
    ed25519 := none,
    secp256k1 := some { private_key_hex := "01", public_key_hex := "", signature_hex := "ff" },
    secp256r1 := some { private_key_hex := "01", public_key_hex := "", signature_hex := "ff" } }

/-- Vector with both ECDSA families present and a two-byte claimed
signature (not 64 bytes). -/
def vecShortSig : Vector :=
  { name := "w2", sign_bytes_hex := "",
    ed25519 := none,
    secp256k1 := some { private_key_hex := "01", public_key_hex := "", signature_hex := "aabb" },
    secp256r1 := some { private_key_hex := "01", public_key_hex := "", signature_hex := "aabb" } }

/-- Vector whose Ed25519 claimed signature matches what `cFalse` recomputes. -/
def vecEdMatch : Vector :=
  { name := "w3", sign_bytes_hex := "",
    ed25519 := some { private_key_hex := zeros 64, public_key_hex := "",
                      signature_hex := zeros 128 },
    secp256k1 := none, secp256r1 := none }

/-! ### Claim theorems -/

/-- C1: for a vector with a non-empty ECDSA claimed signature (on either
curve, with decodable fields and a derivable private key), the outcome is
Valid exactly when the claimed (R, S) verifies as given or with the
curve-order complement n − S, where n is the own order of the family; the
outcome is Invalid exactly otherwise; and the two curve orders are distinct
constants. -/
theorem c1_ecdsa_valid_iff_dual_s (c : Crypto) (v : Vector) (dk dr : FamilySig)
    (pbk sbk pbr sbr mh : List Nat)
    (hdk : v.secp256k1 = some dk) (hdr : v.secp256r1 = some dr)
    (hnek : dk.signature_hex ≠ "") (hner : dr.signature_hex ≠ "")
    (hpbk : hexDecode dk.private_key_hex = .ok pbk)
    (hkk1 : 1 ≤ beInt pbk) (hkk2 : beInt pbk < curveOrder Curve.secp256k1)
    (hpbr : hexDecode dr.private_key_hex = .ok pbr)
    (hkr1 : 1 ≤ beInt pbr) (hkr2 : beInt pbr < curveOrder Curve.secp256r1)
    (hmh : hexDecode v.sign_bytes_hex = .ok mh)
    (hsbk : hexDecode dk.signature_hex = .ok sbk)
    (hsbr : hexDecode dr.signature_hex = .ok sbr) :
    ((validate_secp256k1 c v).1 = some true ↔
      (c.ecVerify Curve.secp256k1 (beInt pbk) mh (beInt (sbk.take 32) : Int)
          (beInt (sbk.drop 32) : Int) = true ∨
        c.ecVerify Curve.secp256k1 (beInt pbk) mh (beInt (sbk.take 32) : Int)
          ((curveOrder Curve.secp256k1 : Int) - (beInt (sbk.drop 32) : Int)) = true)) ∧
    ((validate_secp256k1 c v).1 = some false ↔
      ¬ (c.ecVerify Curve.secp256k1 (beInt pbk) mh (beInt (sbk.take 32) : Int)
          (beInt (sbk.drop 32) : Int) = true ∨
        c.ecVerify Curve.secp256k1 (beInt pbk) mh (beInt (sbk.take 32) : Int)
          ((curveOrder Curve.secp256k1 : Int) - (beInt (sbk.drop 32) : Int)) = true)) ∧
    ((validate_secp256r1 c v).1 = some true ↔
      (c.ecVerify Curve.secp256r1 (beInt pbr) mh (beInt (sbr.take 32) : Int)
          (beInt (sbr.drop 32) : Int) = true ∨
        c.ecVerify Curve.secp256r1 (beInt pbr) mh (beInt (sbr.take 32) : Int)
          ((curveOrder Curve.secp256r1 : Int) - (beInt (sbr.drop 32) : Int)) = true)) ∧
    ((validate_secp256r1 c v).1 = some false ↔
      ¬ (c.ecVerify Curve.secp256r1 (beInt pbr) mh (beInt (sbr.take 32) : Int)
          (beInt (sbr.drop 32) : Int) = true ∨
        c.ecVerify Curve.secp256r1 (beInt pbr) mh (beInt (sbr.take 32) : Int)
          ((curveOrder Curve.secp256r1 : Int) - (beInt (sbr.drop 32) : Int)) = true)) ∧
    curveOrder Curve.secp256k1 ≠ curveOrder Curve.secp256r1 := by
  rw [secp256k1_eval c v dk pbk mh sbk hdk hnek hpbk hkk1 hkk2 hmh hsbk]
  rw [secp256r1_eval c v dr pbr mh sbr hdr hner hpbr hkr1 hkr2 hmh hsbr]
  refine ⟨?_, ?_, ?_, ?_, by decide⟩ <;>
  · split <;> simp_all

/-- C1 witness: the theorem applied at a concrete provider and vector. -/
theorem c1_witness :
    ((validate_secp256k1 cFalse vecEcdsa).1 = some true ↔
      (cFalse.ecVerify Curve.secp256k1 (beInt [1]) [] (beInt (([255] : List Nat).take 32) : Int)
          (beInt (([255] : List Nat).drop 32) : Int) = true ∨
        cFalse.ecVerify Curve.secp256k1 (beInt [1]) [] (beInt (([255] : List Nat).take 32) : Int)
          ((curveOrder Curve.secp256k1 : Int) - (beInt (([255] : List Nat).drop 32) : Int)) = true)) ∧
    ((validate_secp256k1 cFalse vecEcdsa).1 = some false ↔
      ¬ (cFalse.ecVerify Curve.secp256k1 (beInt [1]) [] (beInt (([255] : List Nat).take 32) : Int)
          (beInt (([255] : List Nat).drop 32) : Int) = true ∨
        cFalse.ecVerify Curve.secp256k1 (beInt [1]) [] (beInt (([255] : List Nat).take 32) : Int)
          ((curveOrder Curve.secp256k1 : Int) - (beInt (([255] : List Nat).drop 32) : Int)) = true)) ∧
    ((validate_secp256r1 cFalse vecEcdsa).1 = some true ↔
      (cFalse.ecVerify Curve.secp256r1 (beInt [1]) [] (beInt (([255] : List Nat).take 32) : Int)
          (beInt (([255] : List Nat).drop 32) : Int) = true ∨
        cFalse.ecVerify Curve.secp256r1 (beInt [1]) [] (beInt (([255] : List Nat).take 32) : Int)
          ((curveOrder Curve.secp256r1 : Int) - (beInt (([255] : List Nat).drop 32) : Int)) = true)) ∧
    ((validate_secp256r1 cFalse vecEcdsa).1 = some false ↔
      ¬ (cFalse.ecVerify Curve.secp256r1 (beInt [1]) [] (beInt (([255] : List Nat).take 32) : Int)
          (beInt (([255] : List Nat).drop 32) : Int) = true ∨
        cFalse.ecVerify Curve.secp256r1 (beInt [1]) [] (beInt (([255] : List Nat).take 32) : Int)
          ((curveOrder Curve.secp256r1 : Int) - (beInt (([255] : List Nat).drop 32) : Int)) = true)) ∧
    curveOrder Curve.secp256k1 ≠ curveOrder Curve.secp256r1 :=
  c1_ecdsa_valid_iff_dual_s cFalse vecEcdsa
    { private_key_hex := "01", public_key_hex := "", signature_hex := "ff" }
    { private_key_hex := "01", public_key_hex := "", signature_hex := "ff" }
    [1] [255] [1] [255] []
    rfl rfl (by decide) (by decide) rfl (by decide) (by decide) rfl
    (by decide) (by decide) rfl rfl rfl

/-- C10: for a non-empty well-formed hex ECDSA claimed signature of ANY byte
length (the decoded byte list `sbk` or `sbr` carries no length hypothesis),
the validator parses R as the big-endian integer of the first 32 bytes and S
as the big-endian integer of the remaining bytes and proceeds to
verification, never returning the Skipped result `none`: no 64-byte length
check is enforced at the validation interface. -/
theorem c10_any_length_parsed (c : Crypto) (v : Vector) (dk dr : FamilySig)
    (pbk sbk pbr sbr mh : List Nat)
    (hdk : v.secp256k1 = some dk) (hdr : v.secp256r1 = some dr)
    (hnek : dk.signature_hex ≠ "") (hner : dr.signature_hex ≠ "")
    (hpbk : hexDecode dk.private_key_hex = .ok pbk)
    (hkk1 : 1 ≤ beInt pbk) (hkk2 : beInt pbk < curveOrder Curve.secp256k1)
    (hpbr : hexDecode dr.private_key_hex = .ok pbr)
    (hkr1 : 1 ≤ beInt pbr) (hkr2 : beInt pbr < curveOrder Curve.secp256r1)
    (hmh : hexDecode v.sign_bytes_hex = .ok mh)
    (hsbk : hexDecode dk.signature_hex = .ok sbk)
    (hsbr : hexDecode dr.signature_hex = .ok sbr) :
    (validate_secp256k1 c v =
      if c.ecVerify Curve.secp256k1 (beInt pbk) mh (beInt (sbk.take 32) : Int)
            (beInt (sbk.drop 32) : Int)
          || c.ecVerify Curve.secp256k1 (beInt pbk) mh (beInt (sbk.take 32) : Int)
            ((curveOrder Curve.secp256k1 : Int) - (beInt (sbk.drop 32) : Int))
      then (some true, "secp256k1 signature verified: " ++ dk.signature_hex.take 32 ++ "...")
      else (some false, "secp256k1 signature verification FAILED")) ∧
    (validate_secp256k1 c v).1 ≠ none ∧
    (validate_secp256r1 c v =
      if c.ecVerify Curve.secp256r1 (beInt pbr) mh (beInt (sbr.take 32) : Int)
            (beInt (sbr.drop 32) : Int)
          || c.ecVerify Curve.secp256r1 (beInt pbr) mh (beInt (sbr.take 32) : Int)
            ((curveOrder Curve.secp256r1 : Int) - (beInt (sbr.drop 32) : Int))
      then (some true, "secp256r1 signature verified: " ++ dr.signature_hex.take 32 ++ "...")
      else (some false, "secp256r1 signature verification FAILED")) ∧
    (validate_secp256r1 c v).1 ≠ none := by
  rw [secp256k1_eval c v dk pbk mh sbk hdk hnek hpbk hkk1 hkk2 hmh hsbk]
  rw [secp256r1_eval c v dr pbr mh sbr hdr hner hpbr hkr1 hkr2 hmh hsbr]
  refine ⟨rfl, ?_, rfl, ?_⟩ <;>
  · split <;> simp

/-- C10 witness: a two-byte claimed signature (length 2, not 64) is parsed
as R = 0xaabb (first up-to-32 bytes), S = 0 (remaining bytes) and reaches
verification. -/
theorem c10_witness :
    (validate_secp256k1 cFalse vecShortSig =
      if cFalse.ecVerify Curve.secp256k1 (beInt [1]) []
            (beInt (([170, 187] : List Nat).take 32) : Int)
            (beInt (([170, 187] : List Nat).drop 32) : Int)
          || cFalse.ecVerify Curve.secp256k1 (beInt [1]) []
            (beInt (([170, 187] : List Nat).take 32) : Int)
            ((curveOrder Curve.secp256k1 : Int) - (beInt (([170, 187] : List Nat).drop 32) : Int))
      then (some true, "secp256k1 signature verified: " ++ ("aabb" : String).take 32 ++ "...")
      else (some false, "secp256k1 signature verification FAILED")) ∧
    (validate_secp256k1 cFalse vecShortSig).1 ≠ none ∧
    (validate_secp256r1 cFalse vecShortSig =
      if cFalse.ecVerify Curve.secp256r1 (beInt [1]) []
            (beInt (([170, 187] : List Nat).take 32) : Int)
            (beInt (([170, 187] : List Nat).drop 32) : Int)
          || cFalse.ecVerify Curve.secp256r1 (beInt [1]) []
            (beInt (([170, 187] : List Nat).take 32) : Int)
            ((curveOrder Curve.secp256r1 : Int) - (beInt (([170, 187] : List Nat).drop 32) : Int))
      then (some true, "secp256r1 signature verified: " ++ ("aabb" : String).take 32 ++ "...")
      else (some false, "secp256r1 signature verification FAILED")) ∧
    (validate_secp256r1 cFalse vecShortSig).1 ≠ none :=
  c10_any_length_parsed cFalse vecShortSig
    { private_key_hex := "01", public_key_hex := "", signature_hex := "aabb" }
    { private_key_hex := "01", public_key_hex := "", signature_hex := "aabb" }
    [1] [170, 187] [1] [170, 187] []
    rfl rfl (by decide) (by decide) rfl (by decide) (by decide) rfl
    (by decide) (by decide) rfl rfl rfl

/-- C2: when the Ed25519 family is present and the recomputation path is
reached (decodable fields, 32-byte seed after truncation), the outcome is
Valid exactly when the lower-case hex encoding of the recomputed signature
is character-for-character equal to the claimed `signature_hex`; otherwise
the outcome is Invalid with a message that is exactly the mismatch
diagnostic carrying both the expected and the recomputed hex values. -/
theorem c2_ed25519_exact_match (c : Crypto) (v : Vector) (d : FamilySig)
    (pb msg : List Nat)
    (hd : v.ed25519 = some d)
    (hpb : hexDecode d.private_key_hex = .ok pb)
    (hseed : (if pb.length = 64 then pb.take 32 else pb).length = 32)
    (hmsg : hexDecode v.sign_bytes_hex = .ok msg) :
    ((validate_ed25519 c v).1 = some true ↔
      hexEncode (c.ed25519Sign (if pb.length = 64 then pb.take 32 else pb) msg)
        = d.signature_hex) ∧
    (hexEncode (c.ed25519Sign (if pb.length = 64 then pb.take 32 else pb) msg)
        ≠ d.signature_hex →
      validate_ed25519 c v =
        (some false, "Ed25519 mismatch!\n  Expected: " ++ d.signature_hex
          ++ "\n  Got:      "
          ++ hexEncode (c.ed25519Sign (if pb.length = 64 then pb.take 32 else pb) msg))) := by
  rw [ed25519_eval c v d pb msg hd hpb hseed hmsg]
  constructor
  · by_cases heq : hexEncode (c.ed25519Sign (if pb.length = 64 then pb.take 32 else pb) msg)
        = d.signature_hex
    · simp [heq]
    · simp [heq]
  · intro hne
    rw [if_neg hne]

/-- C2 witness: the theorem applied at a concrete provider and a vector whose
claimed Ed25519 signature equals the recomputed one. -/
theorem c2_witness :
    ((validate_ed25519 cFalse vecEdMatch).1 = some true ↔
      hexEncode (cFalse.ed25519Sign
          (if (List.replicate 32 0).length = 64 then (List.replicate 32 0).take 32
           else List.replicate 32 0) [])
        = zeros 128) ∧
    (hexEncode (cFalse.ed25519Sign
          (if (List.replicate 32 0).length = 64 then (List.replicate 32 0).take 32
           else List.replicate 32 0) [])
        ≠ zeros 128 →
      validate_ed25519 cFalse vecEdMatch =
        (some false, "Ed25519 mismatch!\n  Expected: " ++ zeros 128
          ++ "\n  Got:      "
          ++ hexEncode (cFalse.ed25519Sign
              (if (List.replicate 32 0).length = 64 then (List.replicate 32 0).take 32
               else List.replicate 32 0) []))) :=
  c2_ed25519_exact_match cFalse vecEdMatch
    { private_key_hex := zeros 64, public_key_hex := "", signature_hex := zeros 128 }
    (List.replicate 32 0) []
    rfl rfl (by decide) rfl

/-- Vector whose private-key hex is malformed for all three families (and
whose ECDSA signatures are non-empty, so decoding is reached). -/
def vecBadHex : Vector :=
  { name := "w4", sign_bytes_hex := "",
    ed25519 := some { private_key_hex := "zz", public_key_hex := "", signature_hex := "" },
    secp256k1 := some { private_key_hex := "zz", public_key_hex := "", signature_hex := "ff" },
    secp256r1 := some { private_key_hex := "zz", public_key_hex := "", signature_hex := "ff" } }

/-- C6: every exception raised inside one per-family check body is caught at
the check boundary and converted into an Invalid outcome whose message
carries the diagnostic; the total Lean functions `validate_*` never
propagate it, so a malformed vector only yields a reported Invalid. -/
theorem c6_exception_to_invalid (c : Crypto) (v : Vector) :
    (∀ e, ed25519Check c v = .error e →
      validate_ed25519 c v = (some false, "Ed25519 validation error: " ++ e)) ∧
    (∀ e, secp256k1Check c v = .error e →
      validate_secp256k1 c v = (some false, "secp256k1 validation error: " ++ e)) ∧
    (∀ e, secp256r1Check c v = .error e →
      validate_secp256r1 c v = (some false, "secp256r1 validation error: " ++ e)) := by
  refine ⟨fun e h => ?_, fun e h => ?_, fun e h => ?_⟩
  · rw [validate_ed25519, h]
  · rw [validate_secp256k1, h]
  · rw [validate_secp256r1, h]

/-- C6 witness: a malformed private-key hex raises in each check body and
each validator reports it as Invalid with the diagnostic. -/
theorem c6_witness :
    validate_ed25519 cFalse vecBadHex =
      (some false, "Ed25519 validation error: "
        ++ "non-hexadecimal number found in fromhex() arg") ∧
    validate_secp256k1 cFalse vecBadHex =
      (some false, "secp256k1 validation error: "
        ++ "non-hexadecimal number found in fromhex() arg") ∧
    validate_secp256r1 cFalse vecBadHex =
      (some false, "secp256r1 validation error: "
        ++ "non-hexadecimal number found in fromhex() arg") :=
  ⟨(c6_exception_to_invalid cFalse vecBadHex).1 _ rfl,
   (c6_exception_to_invalid cFalse vecBadHex).2.1 _ rfl,
   (c6_exception_to_invalid cFalse vecBadHex).2.2 _ rfl⟩

/-- C7: an Ed25519 private-key field holding a bare 32-byte seed and one
holding the same seed followed by 32 further bytes are interchangeable: only
the first 32 bytes are used as the seed, so the whole validation outcome
(recomputed signature included) is identical. -/
theorem c7_seed_truncation (c : Crypto) (v : Vector) (d : FamilySig)
    (pk2 : String) (seed extra : List Nat)
    (hd : v.ed25519 = some d)
    (h1 : hexDecode d.private_key_hex = .ok seed)
    (h2 : hexDecode pk2 = .ok (seed ++ extra))
    (hseed : seed.length = 32) (hextra : extra.length = 32) :
    validate_ed25519 c { v with ed25519 := some { d with private_key_hex := pk2 } } =
      validate_ed25519 c v := by
  have hlen : (seed ++ extra).length = 64 := by
    simp [List.length_append, hseed, hextra]
  have htake : (seed ++ extra).take 32 = seed := by
    rw [← hseed]
    exact List.take_left seed extra
  simp only [validate_ed25519, ed25519Check, hd, h1, h2, hlen, htake, hseed]
  norm_num

/-- C7 witness: concrete 32-byte seed and 64-byte seed-plus-suffix fields
yield the same outcome. -/
theorem c7_witness :
    validate_ed25519 cFalse
        { vecEdMatch with
          ed25519 := some
            { private_key_hex := zeros 128, public_key_hex := "", signature_hex := zeros 128 } } =
      validate_ed25519 cFalse vecEdMatch :=
  c7_seed_truncation cFalse vecEdMatch
    { private_key_hex := zeros 64, public_key_hex := "", signature_hex := zeros 128 }
    (zeros 128) (List.replicate 32 0) (List.replicate 32 0)
    rfl rfl rfl (by decide) (by decide)

/-- C9: the ECDSA outcomes never depend on the supplied `public_key_hex`:
overwriting that field with any string leaves both the secp256k1 and the
secp256r1 outcome (message included) unchanged, because the verification key
is always reconstructed from the private-key integer. -/
theorem c9_public_key_ignored (c : Crypto) (v : Vector) (pk : String) :
    validate_secp256k1 c
        { v with secp256k1 := v.secp256k1.map fun d => { d with public_key_hex := pk } } =
      validate_secp256k1 c v ∧
    validate_secp256r1 c
        { v with secp256r1 := v.secp256r1.map fun d => { d with public_key_hex := pk } } =
      validate_secp256r1 c v := by
  rcases v with ⟨nm, sb, ed, k1, r1⟩
  constructor
  · cases k1 <;> rfl
  · cases r1 <;> rfl

theorem failEntries_nil_iff (c : Crypto) (v : Vector) :
    failEntries c v = [] ↔
      ((validate_ed25519 c v).1 ≠ some false ∧
       (validate_secp256k1 c v).1 ≠ some false ∧
       (validate_secp256r1 c v).1 ≠ some false) := by
  unfold failEntries failOf vecEntries validate_vector
  rcases h1 : validate_ed25519 c v with ⟨o1, m1⟩
  rcases h2 : validate_secp256k1 c v with ⟨o2, m2⟩
  rcases h3 : validate_secp256r1 c v with ⟨o3, m3⟩
  rcases o1 with _ | (_ | _) <;> rcases o2 with _ | (_ | _) <;> rcases o3 with _ | (_ | _) <;>
    simp [List.filterMap]

theorem isNil_collect_fail_iff (c : Crypto) (vs : List Vector) :
    isNil (collect (failEntries c) vs) = true ↔
      ∀ v ∈ vs, ((validate_ed25519 c v).1 ≠ some false ∧
        (validate_secp256k1 c v).1 ≠ some false ∧
        (validate_secp256r1 c v).1 ≠ some false) := by
  induction vs with
  | nil => simp [collect, isNil]
  | cons v rest ih =>
    simp only [collect, isNil_append, Bool.and_eq_true, List.mem_cons]
    rw [ih]
    constructor
    · rintro ⟨hv, hrest⟩ w hw
      rcases hw with rfl | hw
      · have : failEntries c w = [] := by
          cases hf : failEntries c w with
          | nil => rfl
          | cons a l => rw [hf] at hv; simp [isNil] at hv
        exact (failEntries_nil_iff c w).1 this
      · exact hrest w hw
    · intro h
      refine ⟨?_, fun w hw => h w (Or.inr hw)⟩
      have : failEntries c v = [] := (failEntries_nil_iff c v).2 (h v (Or.inl rfl))
      rw [this]
      rfl

/-- C3: the exit code is 0 exactly when the vectors file is present and no
(vector, family) check produced an Invalid outcome (Skipped outcomes never
cause failure), and 1 exactly when the file is missing or at least one
Invalid outcome was produced. -/
theorem c3_exit_code_iff_no_invalid (c : Crypto) (data : Option (List Vector)) :
    (mainExitCode c data = 0 ↔
      ∃ vs, data = some vs ∧ ∀ v ∈ vs,
        ((validate_ed25519 c v).1 ≠ some false ∧
         (validate_secp256k1 c v).1 ≠ some false ∧
         (validate_secp256r1 c v).1 ≠ some false)) ∧
    (mainExitCode c data = 1 ↔
      (data = none ∨ ∃ vs, data = some vs ∧ ∃ v ∈ vs,
        ((validate_ed25519 c v).1 = some false ∨
         (validate_secp256k1 c v).1 = some false ∨
         (validate_secp256r1 c v).1 = some false))) := by
  cases data with
  | none => simp [mainExitCode]
  | some vs =>
    have hrun2 : (run c vs).2 = isNil (collect (failEntries c) vs) := by
      rw [run_spec]
    have hiff := isNil_collect_fail_iff c vs
    constructor
    · constructor
      · intro h0
        refine ⟨vs, rfl, hiff.1 ?_⟩
        cases hx : isNil (collect (failEntries c) vs)
        · simp [mainExitCode, hrun2, hx] at h0
        · rfl
      · rintro ⟨ws, hws, hall⟩
        obtain rfl := Option.some.inj hws
        have hx : isNil (collect (failEntries c) vs) = true := hiff.2 hall
        simp [mainExitCode, hrun2, hx]
    · constructor
      · intro h1
        right
        refine ⟨vs, rfl, ?_⟩
        cases hx : isNil (collect (failEntries c) vs) with
        | true => simp [mainExitCode, hrun2, hx] at h1
        | false =>
          by_contra hno
          push_neg at hno
          apply (by simp [hx] : ¬ isNil (collect (failEntries c) vs) = true)
          apply hiff.2
          intro w hw
          have := hno w hw
          tauto
      · rintro (hnone | ⟨ws, hws, w, hw, hbad⟩)
        · exact absurd hnone (by simp)
        · obtain rfl := Option.some.inj hws
          cases hx : isNil (collect (failEntries c) vs) with
          | false => simp [mainExitCode, hrun2, hx]
          | true =>
            have := hiff.1 hx w hw
            tauto

theorem hexEncode_ne_empty (bs : List Nat) (hne : bs ≠ []) : hexEncode bs ≠ "" := by
  cases bs with
  | nil => exact absurd rfl hne
  | cons b rest =>
    intro h
    have hdata := congrArg String.data h
    simp [hexEncode, List.flatMap] at hdata

/-- Vector supplying all three families, each with an empty claimed
signature. -/
def vecAllEmpty : Vector :=
  { name := "c4w", sign_bytes_hex := "",
    ed25519 := some { private_key_hex := zeros 64, public_key_hex := "", signature_hex := "" },
    secp256k1 := some { private_key_hex := "01", public_key_hex := "", signature_hex := "" },
    secp256r1 := some { private_key_hex := "01", public_key_hex := "", signature_hex := "" } }

/-- C4 counterexample: a vector supplying the Ed25519 family with an empty
claimed signature is NOT Skipped: `validate_ed25519` has no empty-signature
check, recomputes the signature and reports a mismatch, so the outcome is
Invalid (`some false`), refuting the claim for the Ed25519 family. -/
theorem c4_counterexample : (validate_ed25519 cFalse vecAllEmpty).1 = some false := by
  decide

/-- C4 amended: an empty claimed signature yields Skipped for the two ECDSA
families only; for Ed25519 there is no empty-signature skip, and whenever the
recomputation path is reached with a non-empty recomputed signature the
outcome is Invalid. -/
theorem c4_empty_signature_skip (c : Crypto) (v : Vector) :
    (∀ d, v.secp256k1 = some d → d.signature_hex = "" →
      validate_secp256k1 c v = (none, "Empty signature (seed derivation only)")) ∧
    (∀ d, v.secp256r1 = some d → d.signature_hex = "" →
      validate_secp256r1 c v = (none, "Empty signature (seed derivation only)")) ∧
    (∀ d pb msg, v.ed25519 = some d → d.signature_hex = "" →
      hexDecode d.private_key_hex = .ok pb →
      (if pb.length = 64 then pb.take 32 else pb).length = 32 →
      hexDecode v.sign_bytes_hex = .ok msg →
      c.ed25519Sign (if pb.length = 64 then pb.take 32 else pb) msg ≠ [] →
      (validate_ed25519 c v).1 = some false) := by
  refine ⟨fun d hd he => ?_, fun d hd he => ?_, fun d pb msg hd he hpb hseed hmsg hsig => ?_⟩
  · simp [validate_secp256k1, secp256k1Check, hd, he]
  · simp [validate_secp256r1, secp256r1Check, hd, he]
  · rw [ed25519_eval c v d pb msg hd hpb hseed hmsg]
    have hne : hexEncode (c.ed25519Sign (if pb.length = 64 then pb.take 32 else pb) msg)
        ≠ d.signature_hex := by
      rw [he]
      exact hexEncode_ne_empty _ hsig
    rw [if_neg hne]

/-- C4 witness for the amended claim: at a concrete vector with empty claimed
signatures for all three families, the two ECDSA checks are Skipped and the
Ed25519 check is Invalid. -/
theorem c4_witness :
    validate_secp256k1 cFalse vecAllEmpty = (none, "Empty signature (seed derivation only)") ∧
    validate_secp256r1 cFalse vecAllEmpty = (none, "Empty signature (seed derivation only)") ∧
    (validate_ed25519 cFalse vecAllEmpty).1 = some false :=
  ⟨(c4_empty_signature_skip cFalse vecAllEmpty).1 _ rfl rfl,
   (c4_empty_signature_skip cFalse vecAllEmpty).2.1 _ rfl rfl,
   (c4_empty_signature_skip cFalse vecAllEmpty).2.2 _ (List.replicate 32 0) [] rfl rfl rfl
     (by decide) rfl (by decide)⟩

/-- Vector with a passing Ed25519 entry and an empty-signature secp256k1
entry: the secp256k1 Skipped outcome is produced but never reported. -/
def vecMixed : Vector :=
  { name := "v5", sign_bytes_hex := "",
    ed25519 := some { private_key_hex := zeros 64, public_key_hex := "",
                      signature_hex := zeros 128 },
    secp256k1 := some { private_key_hex := "01", public_key_hex := "", signature_hex := "" },
    secp256r1 := none }

/-- Vector supplying no family at all. -/
def vecNoFam : Vector :=
  { name := "v1", sign_bytes_hex := "", ed25519 := none, secp256k1 := none, secp256r1 := none }

/-- C5 counterexample: for a vector whose secp256k1 check produces a Skipped
outcome (`none`) while its Ed25519 check passes, the report classifies only
the Ed25519 outcome — passed has one entry and skipped is empty, so the
per-family Skipped outcome of secp256k1 is silently dropped, refuting the
claim that every outcome lands in one of the three buckets. -/
theorem c5_counterexample :
    (validate_secp256k1 cFalse vecMixed).1 = none ∧
    run cFalse [vecMixed] =
      ({ passed := ["v5:ed25519"], failed := [], skipped := [] }, true) := by
  constructor
  · rfl
  · decide

theorem passOf_failOf_length (nm : String) (l : List (String × Bool × String)) :
    (passOf nm l).length + (failOf nm l).length = l.length := by
  induction l with
  | nil => simp [passOf, failOf]
  | cons ar rest ih =>
    rcases ar with ⟨a, p, m⟩
    cases p <;> simp [passOf, failOf] at ih ⊢ <;> omega

/-- C5 amended: the report is exactly the concatenation of the per-vector
contributions; every non-Skipped (vector, family) outcome is classified into
exactly one of passed/failed (their lengths add up to the number of reported
entries); per-family Skipped outcomes contribute nothing, and only a vector
with no reported entries at all contributes — its bare name — to skipped. -/
theorem c5_outcome_classification (c : Crypto) (vs : List Vector) :
    run c vs =
      ({ passed := collect (passEntries c) vs,
         failed := collect (failEntries c) vs,
         skipped := collect (skipEntries c) vs },
        isNil (collect (failEntries c) vs)) ∧
    (∀ v : Vector,
      (passEntries c v).length + (failEntries c v).length = (vecEntries c v).length) ∧
    (∀ v : Vector, vecEntries c v = [] → skipEntries c v = [v.name]) ∧
    (∀ v : Vector, vecEntries c v ≠ [] → skipEntries c v = []) := by
  refine ⟨run_spec c vs, fun v => passOf_failOf_length v.name (vecEntries c v),
    fun v hv => ?_, fun v hv => ?_⟩
  · simp [skipEntries, hv, isNil]
  · have : isNil (vecEntries c v) = false := by
      cases hx : vecEntries c v with
      | nil => exact absurd hx hv
      | cons a l => rfl
    simp [skipEntries, this]

/-- C5 witness for the amended claim, at concrete inputs. -/
theorem c5_witness :
    (passEntries cFalse vecMixed).length + (failEntries cFalse vecMixed).length
      = (vecEntries cFalse vecMixed).length ∧
    skipEntries cFalse vecNoFam = [vecNoFam.name] :=
  ⟨(c5_outcome_classification cFalse []).2.1 vecMixed,
   (c5_outcome_classification cFalse []).2.2.1 vecNoFam rfl⟩

theorem mem_collect {α : Type} (f : α → List String) (xs : List α) (s : String) :
    s ∈ collect f xs ↔ ∃ x ∈ xs, s ∈ f x := by
  induction xs with
  | nil => simp [collect]
  | cons x rest ih => simp [collect, List.mem_append, ih]

theorem mem_passOf {nm : String} {l : List (String × Bool × String)} {s : String}
    (h : s ∈ passOf nm l) : ∃ ar ∈ l, s = nm ++ ":" ++ ar.1 := by
  rw [passOf, List.mem_filterMap] at h
  obtain ⟨ar, har, hs⟩ := h
  refine ⟨ar, har, ?_⟩
  by_cases hp : ar.2.1 = true
  · rw [if_pos hp] at hs
    exact (Option.some.inj hs).symm
  · rw [if_neg hp] at hs
    exact absurd hs (by simp)

theorem mem_failOf {nm : String} {l : List (String × Bool × String)} {s : String}
    (h : s ∈ failOf nm l) : ∃ ar ∈ l, s = nm ++ ":" ++ ar.1 := by
  rw [failOf, List.mem_filterMap] at h
  obtain ⟨ar, har, hs⟩ := h
  refine ⟨ar, har, ?_⟩
  by_cases hp : ar.2.1 = true
  · rw [if_pos hp] at hs
    exact absurd hs (by simp)
  · rw [if_neg hp] at hs
    exact (Option.some.inj hs).symm

theorem mem_vecEntries_fam {c : Crypto} {v : Vector} {ar : String × Bool × String}
    (h : ar ∈ vecEntries c v) :
    ar.1 ∈ (["ed25519", "secp256k1", "secp256r1"] : List String) := by
  rw [vecEntries, validate_vector, List.mem_filterMap] at h
  obtain ⟨p, hp, hpa⟩ := h
  have h1 : p.1 ∈ (["ed25519", "secp256k1", "secp256r1"] : List String) := by
    simp at hp
    rcases hp with h | h | h <;> rw [h] <;> simp
  cases ho : p.2.1 with
  | none => rw [ho] at hpa; exact absurd hpa (by simp)
  | some b =>
    rw [ho] at hpa
    have := Option.some.inj hpa
    rw [← this]
    exact h1

theorem mem_skipEntries {c : Crypto} {v : Vector} {s : String}
    (h : s ∈ skipEntries c v) : s = v.name := by
  rw [skipEntries] at h
  by_cases hn : isNil (vecEntries c v) = true
  · rw [if_pos hn] at h
    simpa using h
  · rw [if_neg hn] at h
    exact absurd h (by simp)

/-- C8 counterexample: a vector with zero non-skipped outcomes puts its BARE
name into the skipped array; "v1" is not of the form name, colon, family for
any family, so the skipped array is not made of name-colon-family
identifiers, refuting the claim about the skipped array. -/
theorem c8_counterexample :
    (run cFalse [vecNoFam]).1.skipped = ["v1"] ∧
    ¬ ∃ nm fam, fam ∈ (["ed25519", "secp256k1", "secp256r1"] : List String) ∧
      ("v1" : String) = nm ++ ":" ++ fam := by
  constructor
  · rfl
  · rintro ⟨nm, fam, hfam, heq⟩
    have hmem : ':' ∈ ("v1" : String).data := by
      rw [heq]
      rw [String.data_append, String.data_append]
      have : ':' ∈ (":" : String).data := by decide
      simp [List.mem_append, this]
    exact (by decide : ¬ ':' ∈ ("v1" : String).data) hmem

/-- C8 amended: the passed and failed arrays contain only identifiers of the
form name, colon, family (one per classified outcome); the skipped array
contains bare vector names, and a vector with zero non-skipped outcomes is
reported there — as its name alone, not as name-colon-family entries. -/
theorem c8_report_identifiers (c : Crypto) (vs : List Vector) :
    (∀ s ∈ (run c vs).1.passed, ∃ v ∈ vs,
      ∃ fam ∈ (["ed25519", "secp256k1", "secp256r1"] : List String),
        s = v.name ++ ":" ++ fam) ∧
    (∀ s ∈ (run c vs).1.failed, ∃ v ∈ vs,
      ∃ fam ∈ (["ed25519", "secp256k1", "secp256r1"] : List String),
        s = v.name ++ ":" ++ fam) ∧
    (∀ s ∈ (run c vs).1.skipped, ∃ v ∈ vs, s = v.name) ∧
    (∀ v ∈ vs, vecEntries c v = [] → v.name ∈ (run c vs).1.skipped) := by
  rw [run_spec]
  refine ⟨fun s hs => ?_, fun s hs => ?_, fun s hs => ?_, fun v hv hnil => ?_⟩
  · obtain ⟨v, hv, hsv⟩ := (mem_collect (passEntries c) vs s).1 hs
    obtain ⟨ar, har, har2⟩ := mem_passOf hsv
    exact ⟨v, hv, ar.1, mem_vecEntries_fam har, har2⟩
  · obtain ⟨v, hv, hsv⟩ := (mem_collect (failEntries c) vs s).1 hs
    obtain ⟨ar, har, har2⟩ := mem_failOf hsv
    exact ⟨v, hv, ar.1, mem_vecEntries_fam har, har2⟩
  · obtain ⟨v, hv, hsv⟩ := (mem_collect (skipEntries c) vs s).1 hs
    exact ⟨v, hv, mem_skipEntries hsv⟩
  · apply (mem_collect (skipEntries c) vs v.name).2
    refine ⟨v, hv, ?_⟩
    simp [skipEntries, hnil, isNil]

/-- C8 witness for the amended claim: the passed entry of a concrete run is
of the name-colon-family form, and a concrete all-absent vector is reported
in skipped by bare name. -/
theorem c8_witness :
    (∃ v ∈ [vecMixed], ∃ fam ∈ (["ed25519", "secp256k1", "secp256r1"] : List String),
      ("v5:ed25519" : String) = v.name ++ ":" ++ fam) ∧
    vecNoFam.name ∈ (run cFalse [vecNoFam]).1.skipped :=
  ⟨(c8_report_identifiers cFalse [vecMixed]).1 "v5:ed25519" (by decide),
   (c8_report_identifiers cFalse [vecNoFam]).2.2.2 vecNoFam (by decide) rfl⟩

end RFC6979
